import Mathlib

/-!
# Verification of the creampy C2 framework core

Shallow embedding, in Lean 4, of the core components of the creampy
agent/controller tasking framework:

* the agent directory (`C2/Backend/API/agent_manager_pg.py`):
  `register_agent`, `authenticate_agent`, `list_agents`;
* the listener lifecycle orchestrator (`C2/Backend/utils/manager.py`):
  `ProtocolManager.start_all` / `stop_all`;
* the admin control surface (`C2/Backend/API/admin_api.py`): `control_server`,
  `status`;
* the agent-side transports (`Agent/protocols/{http,dns,icmp,smb}_comm.py`);
* the agent tasking loop (`Agent/agent_main.py`, `protocol_polling_task`).

Modelling conventions: timestamps (`datetime.utcnow()`) are `Nat` parameters;
the uuid4-generated token is a `String` parameter supplied to `register_agent`;
database rows are a `List` in insertion order, with `query(...).first()` being
`List.find?`; Python `None` is `Option.none` (or the `PyValue.pyNone` value
where a uniform Python-value type is needed).
-/

namespace Creampy

/-! ## Agent directory — `C2/Backend/API/agent_manager_pg.py`

One row of the `agents` table (the surrogate integer primary key `id` is
omitted; it is never read by any of the four operations). -/

structure Agent where
  agent_id : String
  auth_token : String
  ip_address : String
  registered_at : Nat
  last_seen : Nat
  status : String
deriving DecidableEq, Repr

/-- The `agents` table, in insertion order. -/
abbrev Directory := List Agent

/-- `session.query(Agent).filter(Agent.agent_id == agent_id).first()`. -/
def findAgent (db : Directory) (aid : String) : Option Agent :=
  db.find? (fun a => a.agent_id == aid)

/-- Effect of mutating the ORM object returned by `.first()` and committing:
the first row satisfying `p` is replaced by its image under `f`, in place. -/
def updateFirst (p : Agent → Bool) (f : Agent → Agent) : Directory → Directory
  | [] => []
  | a :: rest => if p a then f a :: rest else a :: updateFirst p f rest

/-- `register_agent(agent_id, ip_address)`.  `now` stands for the
`datetime.datetime.utcnow()` call and `freshToken` for `str(uuid.uuid4())`;
both are effects of the environment, passed in as parameters.  If the agent
exists, its `last_seen`, `ip_address` and `status` are updated and its stored
token returned; otherwise a new row is inserted and the fresh token returned. -/
def register_agent (db : Directory) (aid ip : String) (now : Nat)
    (freshToken : String) : String × Directory :=
  match findAgent db aid with
  | some agent =>
      (agent.auth_token,
        updateFirst (fun a => a.agent_id == aid)
          (fun a => { a with last_seen := now, ip_address := ip, status := "Online" }) db)
  | none =>
      (freshToken,
        db ++ [{ agent_id := aid, auth_token := freshToken, ip_address := ip,
                 registered_at := now, last_seen := now, status := "Online" }])

/-- `authenticate_agent(agent_id, auth_token)`:
`agent is not None and agent.auth_token == auth_token`.  Total — it resolves to
a boolean and never raises. -/
def authenticate_agent (db : Directory) (aid tok : String) : Bool :=
  match findAgent db aid with
  | some agent => agent.auth_token == tok
  | none => false

/-- The per-agent dictionary built by `list_agents`: exactly the keys
`agent_id`, `ip_address`, `registered_at`, `last_seen`, `status` — there is no
`auth_token` field.  The `.isoformat()` rendering of the two timestamps is
kept as the underlying `Nat` (a bijective reformatting, irrelevant to every
claim about `list_agents`). -/
structure AgentView where
  agent_id : String
  ip_address : String
  registered_at : Nat
  last_seen : Nat
  status : String
deriving DecidableEq, Repr

/-- The dictionary `list_agents` appends for one row. -/
def agentView (a : Agent) : AgentView :=
  { agent_id := a.agent_id, ip_address := a.ip_address,
    registered_at := a.registered_at, last_seen := a.last_seen,
    status := a.status }

/-- `list_agents()`: one view dictionary per row, in table order. -/
def list_agents (db : Directory) : List AgentView := db.map agentView

/-- `/api/agent/list` wraps the rows unchanged: `{"agents": agents}`. -/
def api_list_agents (db : Directory) : List AgentView := list_agents db

/-! ### Directory helper lemmas -/

/-- A successful `find?` splits the list at the first hit, and `updateFirst`
rewrites exactly that element. -/
theorem find?_updateFirst_decomp (p : Agent → Bool) (f : Agent → Agent) :
    ∀ (db : Directory) (a : Agent), db.find? p = some a →
      ∃ l₁ l₂, db = l₁ ++ a :: l₂ ∧ (∀ x ∈ l₁, p x = false) ∧
        updateFirst p f db = l₁ ++ f a :: l₂ := by
  intro db
  induction db with
  | nil => intro a h; simp [List.find?] at h
  | cons x rest ih =>
      intro a h
      by_cases hx : p x = true
      · have h' : x = a := by simpa [List.find?, hx] using h
        subst h'
        exact ⟨[], rest, by simp, by simp, by simp [updateFirst, hx]⟩
      · have hx' : p x = false := by simpa using hx
        have h' : rest.find? p = some a := by
          simpa [List.find?, hx'] using h
        obtain ⟨l₁, l₂, hsplit, hpre, hupd⟩ := ih a h'
        refine ⟨x :: l₁, l₂, by simp [hsplit], ?_, ?_⟩
        · intro y hy
          rcases List.mem_cons.mp hy with hy | hy
          · simpa [hy] using hx'
          · exact hpre y hy
        · simp [updateFirst, hx', hupd]

/-- If nothing in the first list matches, `find?` over an append looks only at
the second list. -/
theorem find?_append_of_none (p : Agent → Bool) :
    ∀ (l₁ l₂ : Directory), l₁.find? p = none →
      (l₁ ++ l₂).find? p = l₂.find? p := by
  intro l₁
  induction l₁ with
  | nil => intro l₂ _; simp
  | cons x rest ih =>
      intro l₂ h
      have hx : p x = false := by
        by_cases hx : p x = true
        · simp [List.find?, hx] at h
        · simpa using hx
      have h' : rest.find? p = none := by simpa [List.find?, hx] using h
      simp [List.find?, hx, ih l₂ h']

/-- `updateFirst` leaves the matched row first for `find?` when `f` preserves
the predicate. -/
theorem find?_updateFirst (p : Agent → Bool) (f : Agent → Agent)
    (hpf : ∀ x, p x = true → p (f x) = true) :
    ∀ (db : Directory) (a : Agent), db.find? p = some a →
      (updateFirst p f db).find? p = some (f a) := by
  intro db
  induction db with
  | nil => intro a h; simp [List.find?] at h
  | cons x rest ih =>
      intro a h
      by_cases hx : p x = true
      · have h' : x = a := by simpa [List.find?, hx] using h
        subst h'
        simp [updateFirst, hx, List.find?, hpf x hx]
      · have hx' : p x = false := by simpa using hx
        have h' : rest.find? p = some a := by
          simpa [List.find?, hx'] using h
        simp [updateFirst, hx', List.find?, ih a h']

/-- Members of a list whose image under `f` has no duplicates are equal as soon
as their images are. -/
theorem mem_eq_of_nodup_map {α β : Type} [DecidableEq β] (f : α → β) :
    ∀ (l : List α), (l.map f).Nodup →
      ∀ a ∈ l, ∀ b ∈ l, f a = f b → a = b := by
  intro l
  induction l with
  | nil => intro _ a ha; simp at ha
  | cons x rest ih =>
      intro hnd a ha b hb hfab
      have hnd' : (rest.map f).Nodup := (List.nodup_cons.mp (by simpa using hnd)).2
      have hx : f x ∉ rest.map f := (List.nodup_cons.mp (by simpa using hnd)).1
      rcases List.mem_cons.mp ha with ha | ha <;>
        rcases List.mem_cons.mp hb with hb | hb
      · rw [ha, hb]
      · exfalso
        apply hx
        rw [← ha, hfab]
        exact List.mem_map_of_mem f hb
      · exfalso
        apply hx
        rw [← hb, ← hfab]
        exact List.mem_map_of_mem f ha
      · exact ih hnd' a ha b hb hfab

/-! ### Claim theorems about the directory -/

/-- C1: if agent `aid` is already registered, `register_agent` returns the
stored token unchanged and rewrites exactly the first matching row, setting
`ip_address`, `status := "Online"` and `last_seen := now` while keeping
`agent_id`, `auth_token` and `registered_at` (all other rows untouched, none
inserted); if `aid` is unknown, it appends exactly one new row carrying the
fresh token and status Online and returns that token.  Consequently two
successive `register_agent` calls for the same `aid` (with any ip, timestamp
and fresh-token arguments) return the identical token. -/
theorem register_agent_spec (db : Directory) (aid ip : String) (now : Nat)
    (freshToken : String) :
    (match findAgent db aid with
     | some a =>
        ∃ l₁ l₂,
          db = l₁ ++ a :: l₂ ∧
          (∀ x ∈ l₁, x.agent_id ≠ aid) ∧
          register_agent db aid ip now freshToken =
            (a.auth_token,
              l₁ ++ { a with last_seen := now, ip_address := ip,
                             status := "Online" } :: l₂)
     | none =>
        register_agent db aid ip now freshToken =
          (freshToken,
            db ++ [{ agent_id := aid, auth_token := freshToken, ip_address := ip,
                     registered_at := now, last_seen := now,
                     status := "Online" }])) ∧
    ∀ ip2 now2 tok2,
      (register_agent (register_agent db aid ip now freshToken).2
          aid ip2 now2 tok2).1 =
        (register_agent db aid ip now freshToken).1 := by
  constructor
  · cases h : findAgent db aid with
    | none => simp [register_agent, h]
    | some a =>
        have h' : db.find? (fun x => x.agent_id == aid) = some a := h
        obtain ⟨l₁, l₂, hsplit, hpre, hupd⟩ :=
          find?_updateFirst_decomp (fun x => x.agent_id == aid)
            (fun x => { x with last_seen := now, ip_address := ip,
                               status := "Online" }) db a h'
        refine ⟨l₁, l₂, hsplit, ?_, ?_⟩
        · intro x hx
          have := hpre x hx
          simpa using this
        · simp [register_agent, h, hupd]
  · intro ip2 now2 tok2
    cases h : findAgent db aid with
    | some a =>
        have h' : db.find? (fun x => x.agent_id == aid) = some a := h
        have hsnd : (register_agent db aid ip now freshToken).2 =
            updateFirst (fun x => x.agent_id == aid)
              (fun x => { x with last_seen := now, ip_address := ip,
                                 status := "Online" }) db := by
          simp [register_agent, h]
        have h2 := find?_updateFirst (fun x => x.agent_id == aid)
          (fun x => { x with last_seen := now, ip_address := ip,
                             status := "Online" })
          (fun x hx => hx) db a h'
        rw [hsnd]
        have h2' : findAgent (updateFirst (fun x => x.agent_id == aid)
            (fun x => { x with last_seen := now, ip_address := ip,
                               status := "Online" }) db) aid =
            some { a with last_seen := now, ip_address := ip,
                          status := "Online" } := h2
        simp [register_agent, h, h2']
    | none =>
        have h' : db.find? (fun x => x.agent_id == aid) = none := h
        have hsnd : (register_agent db aid ip now freshToken).2 =
            db ++ [{ agent_id := aid, auth_token := freshToken,
                     ip_address := ip, registered_at := now, last_seen := now,
                     status := "Online" }] := by
          simp [register_agent, h]
        rw [hsnd]
        have h2 : findAgent (db ++ [{ agent_id := aid,
                                      auth_token := freshToken,
                                      ip_address := ip, registered_at := now,
                                      last_seen := now,
                                      status := "Online" }]) aid =
            some { agent_id := aid, auth_token := freshToken, ip_address := ip,
                   registered_at := now, last_seen := now,
                   status := "Online" } := by
          unfold findAgent
          rw [find?_append_of_none _ _ _ h']
          simp [List.find?]
        simp [register_agent, h, h2]

/-- Witness for C1: registering a fresh agent creates exactly its row and
returns the fresh token, and re-registering from another ip returns the
identical token. -/
theorem register_agent_spec_witness :
    register_agent [] "agent_001" "10.0.0.5" 0 "T1" =
      ("T1", [{ agent_id := "agent_001", auth_token := "T1",
                ip_address := "10.0.0.5", registered_at := 0, last_seen := 0,
                status := "Online" }]) ∧
    (register_agent (register_agent [] "agent_001" "10.0.0.5" 0 "T1").2
        "agent_001" "10.0.0.9" 1 "T2").1 =
      (register_agent [] "agent_001" "10.0.0.5" 0 "T1").1 :=
  ⟨(register_agent_spec [] "agent_001" "10.0.0.5" 0 "T1").1,
   (register_agent_spec [] "agent_001" "10.0.0.5" 0 "T1").2 "10.0.0.9" 1 "T2"⟩

/-- C3: on a directory whose `agent_id` column is duplicate-free (the schema
declares it `unique`), `authenticate_agent` returns `true` exactly when a row
for `aid` exists whose stored token equals the supplied one; it is a total
boolean function, so unknown agents and token mismatches yield `false`, never
an exception. -/
theorem authenticate_agent_spec (db : Directory) (aid tok : String)
    (hnodup : (db.map Agent.agent_id).Nodup) :
    (authenticate_agent db aid tok = true ↔
      ∃ a ∈ db, a.agent_id = aid ∧ a.auth_token = tok) := by
  constructor
  · intro h
    unfold authenticate_agent at h
    cases hfind : findAgent db aid with
    | none => rw [hfind] at h; simp at h
    | some a =>
        rw [hfind] at h
        have hfind' : db.find? (fun x => x.agent_id == aid) = some a := hfind
        have hmem : a ∈ db := List.mem_of_find?_eq_some hfind'
        have hid := List.find?_some hfind'
        exact ⟨a, hmem, by simpa using hid, by simpa using h⟩
  · rintro ⟨a, hmem, hid, htok⟩
    unfold authenticate_agent
    cases hfind : findAgent db aid with
    | none =>
        exfalso
        have hfind' : db.find? (fun x => x.agent_id == aid) = none := hfind
        have := List.find?_eq_none.mp hfind' a hmem
        simp [hid] at this
    | some b =>
        have hfind' : db.find? (fun x => x.agent_id == aid) = some b := hfind
        have hbmem : b ∈ db := List.mem_of_find?_eq_some hfind'
        have hbid := List.find?_some hfind'
        have hbid' : b.agent_id = aid := by simpa using hbid
        have hab : a = b := by
          refine mem_eq_of_nodup_map Agent.agent_id db hnodup a hmem b hbmem ?_
          rw [hid, hbid']
        subst hab
        simp [htok]

/-- Witness for C3: on a concrete one-row directory the issued token
authenticates and the iff is inhabited. -/
theorem authenticate_agent_spec_witness :
    authenticate_agent [{ agent_id := "A", auth_token := "tokA",
                          ip_address := "10.0.0.5", registered_at := 0,
                          last_seen := 0,
                          status := "Online" }] "A" "tokA" = true ↔
      ∃ a ∈ [{ agent_id := "A", auth_token := "tokA", ip_address := "10.0.0.5",
               registered_at := 0, last_seen := 0,
               status := "Online" : Agent }],
        a.agent_id = "A" ∧ a.auth_token = "tokA" :=
  authenticate_agent_spec _ "A" "tokA" (by simp)

/-- Two rows that agree on everything the listing shows (all fields except
`auth_token`). -/
def viewFields (a b : Agent) : Prop :=
  a.agent_id = b.agent_id ∧ a.ip_address = b.ip_address ∧
  a.registered_at = b.registered_at ∧ a.last_seen = b.last_seen ∧
  a.status = b.status

/-- C10: the records returned by `list_agents` carry exactly the fields
`agent_id`, `ip_address`, `registered_at`, `last_seen`, `status` (the
`AgentView` structure, built from the source's dictionary literal, has no
`auth_token` field), and the listing is identical for any two directory states
that differ only in their stored `auth_token` values: the listing surface never
discloses a token. -/
theorem list_agents_token_noninterference (db1 db2 : Directory)
    (h : List.Forall₂ viewFields db1 db2) :
    list_agents db1 = list_agents db2 := by
  induction h with
  | nil => rfl
  | cons hab htail ih =>
      obtain ⟨h1, h2, h3, h4, h5⟩ := hab
      show agentView _ :: list_agents _ = agentView _ :: list_agents _
      rw [ih]
      congr 1
      simp [agentView, h1, h2, h3, h4, h5]

/-- Witness for C10: two one-row directories holding different tokens produce
the identical listing. -/
theorem list_agents_token_noninterference_witness :
    list_agents [{ agent_id := "A", auth_token := "tok1",
                   ip_address := "10.0.0.5", registered_at := 0, last_seen := 0,
                   status := "Online" }] =
      list_agents [{ agent_id := "A", auth_token := "tok2",
                     ip_address := "10.0.0.5", registered_at := 0,
                     last_seen := 0, status := "Online" }] :=
  list_agents_token_noninterference _ _
    (List.Forall₂.cons ⟨rfl, rfl, rfl, rfl, rfl⟩ List.Forall₂.nil)

/-! ## Listener lifecycle — `C2/Backend/utils/manager.py`

`ProtocolManager` starts the HTTP and HTTPS servers as asyncio tasks and the
SMB, DNS and ICMP servers as executor futures.  There is no transport
enablement configuration anywhere in the server: `start_all` reads no flags. -/

/-- The five listener units `start_all` instantiates, in creation order. -/
inductive Proto
  | http
  | https
  | smb
  | dns
  | icmp
deriving DecidableEq, Repr

/-- HTTP/HTTPS are `asyncio.Task`s (cooperative, event loop); SMB/DNS/ICMP are
`concurrent.futures` futures of executor threads (blocking units).  `stop_all`
calls `.cancel()` exactly on the `isinstance(task, asyncio.Task)` ones. -/
def Proto.isAsyncTask : Proto → Bool
  | .http => true
  | .https => true
  | _ => false

/-- One tracked entry of `protocol_tasks`, with whether `.cancel()` has been
called on it. -/
structure PTask where
  kind : Proto
  cancelled : Bool
deriving DecidableEq, Repr

/-- Mutable state of a `ProtocolManager` (the `loop` handle and the executor
object carry no lifecycle information and are omitted). -/
structure MgrState where
  protocol_tasks : List PTask
  running : Bool
  stop_event : Bool
deriving DecidableEq, Repr

/-- State built by `ProtocolManager.__init__`. -/
def MgrState.init : MgrState :=
  { protocol_tasks := [], running := false, stop_event := false }

/-- The five freshly created units of one `start_all` call, in source order:
`http_server_task`, `https_server_task`, then the SMB, DNS and ICMP futures. -/
def freshUnits : List PTask :=
  [⟨.http, false⟩, ⟨.https, false⟩, ⟨.smb, false⟩, ⟨.dns, false⟩, ⟨.icmp, false⟩]

/-- `ProtocolManager.start_all`: returns unchanged when already running;
otherwise clears `stop_event`, unconditionally creates all five listener units
(there are no enablement flags to consult) and sets `running`. -/
def start_all (s : MgrState) : MgrState :=
  if s.running then s
  else { protocol_tasks := freshUnits, running := true, stop_event := false }

/-- `ProtocolManager.stop_all`: returns unchanged when not running; otherwise
sets `stop_event`, calls `.cancel()` on every tracked `asyncio.Task` (the
executor futures of the blocking units are merely abandoned), sleeps the grace
period, clears `protocol_tasks` and resets `running`.  The second component is
the list of tracked units as they stand after the cancellation loop and before
`protocol_tasks.clear()` drops the references — the record of what `stop_all`
did to each unit. -/
def stop_all (s : MgrState) : MgrState × List PTask :=
  if !s.running then (s, [])
  else
    ({ protocol_tasks := [], running := false, stop_event := true },
      s.protocol_tasks.map
        (fun t => if t.kind.isAsyncTask then { t with cancelled := true } else t))

/-! ## Admin control surface — `C2/Backend/API/admin_api.py` -/

/-- A response of the `/api/control/{action}` endpoint: either the JSON
success body or a raised `HTTPException(status_code, detail)`. -/
inductive ControlResponse
  | ok (message : String)
  | httpError (status : Nat) (detail : String)
deriving DecidableEq, Repr

/-- Whether the endpoint answered with an `HTTPException`. -/
def ControlResponse.isError : ControlResponse → Bool
  | .ok _ => false
  | .httpError _ _ => true

/-- Combined server state seen by the admin API: the protocol manager and the
agent table.  `manager.py` imports no database module; orchestration touches
only `MgrState`. -/
structure SysState where
  mgr : MgrState
  db : Directory
deriving Repr

/-- `/api/status`: `{"running": protocol_manager.running}`. -/
def api_status (s : SysState) : Bool := s.mgr.running

/-- `start_all` lifted to the combined state (it reads and writes nothing but
the manager). -/
def sys_start_all (s : SysState) : SysState := { s with mgr := start_all s.mgr }

/-- Sequential semantics of `control_server(action)` together with the
eventual effect of the coroutines it schedules.  The endpoint validates the
action, then for `start`/`stop` hands the manager coroutine to
`asyncio.create_task` and returns its success body at once; `restart` awaits
`stop_all`, sleeps, then schedules `start_all`.  The returned state is the
manager state once the scheduled coroutines have run to completion on the
(single-threaded) event loop; an unknown action raises `HTTPException(400)`
before any manager call is made. -/
def control_server_effect (action : String) (s : MgrState) :
    ControlResponse × MgrState :=
  if action == "start" then (.ok "Start triggered successfully!", start_all s)
  else if action == "stop" then (.ok "Stop triggered successfully!", (stop_all s).1)
  else if action == "restart" then
    (.ok "Restart triggered successfully!", start_all (stop_all s).1)
  else (.httpError 400 "Invalid action", s)

/-- Whether a manager coroutine, once actually executed, raises. -/
inductive OrchOutcome
  | completes
  | raises
deriving DecidableEq, Repr

/-- Exception plumbing of `control_server(action)`: which response the caller
receives, and whether any `protocol_manager` call was made or scheduled.
`asyncio.create_task` only schedules its coroutine: the endpoint's `try` block
has already returned when the coroutine body runs, so an exception raised
inside a scheduled `start_all`/`stop_all` lands in the background task and
never reaches the caller — only the `restart` branch awaits `stop_all` inside
the `try`, so only that failure is converted to `HTTPException(500)`. -/
def control_server_response (action : String)
    (startOutcome stopOutcome : OrchOutcome) : ControlResponse × Bool :=
  if action == "start" then (.ok "Start triggered successfully!", true)
  else if action == "stop" then (.ok "Stop triggered successfully!", true)
  else if action == "restart" then
    match stopOutcome with
    | .raises => (.httpError 500 "Failed to restart server.", true)
    | .completes => (.ok "Restart triggered successfully!", true)
  else (.httpError 400 "Invalid action", false)

/-! ### Claim theorems about the orchestrator and the control surface -/

/-- C2 counterexample: the claim predicts one listener unit per enabled
transport — in particular exactly 2 units under the configuration with HTTP
and DNS enabled and ICMP and SMB disabled.  The server consults no enablement
flags at all: `start_all` from the Stopped state always creates 5 units,
including SMB and ICMP ones, so under that configuration the unit count is 5,
not 2. -/
theorem start_all_unit_count_counterexample :
    (start_all MgrState.init).protocol_tasks.map PTask.kind =
      [.http, .https, .smb, .dns, .icmp] ∧
    (start_all MgrState.init).protocol_tasks.length = 5 ∧
    (start_all MgrState.init).protocol_tasks.length ≠ 2 := by
  decide

/-- C2 amended: from any non-running state, `start_all` unconditionally
instantiates exactly five listener units — HTTP, HTTPS, SMB, DNS, ICMP — in
that order, ignoring any transport enablement configuration (none exists in
the server); afterwards the status endpoint reports running=true and the
Directory contents are unaffected. -/
theorem start_all_units_amended (s : SysState) (h : s.mgr.running = false) :
    (sys_start_all s).mgr.protocol_tasks.map PTask.kind =
      [.http, .https, .smb, .dns, .icmp] ∧
    api_status (sys_start_all s) = true ∧
    (sys_start_all s).db = s.db := by
  simp [sys_start_all, api_status, start_all, h, freshUnits]

/-- Witness for the amended C2: starting from the freshly initialised system
with one registered agent. -/
theorem start_all_units_amended_witness :
    (sys_start_all ⟨MgrState.init,
        [{ agent_id := "A", auth_token := "T", ip_address := "10.0.0.5",
           registered_at := 0, last_seen := 0,
           status := "Online" }]⟩).mgr.protocol_tasks.map PTask.kind =
      [.http, .https, .smb, .dns, .icmp] ∧
    api_status (sys_start_all ⟨MgrState.init,
        [{ agent_id := "A", auth_token := "T", ip_address := "10.0.0.5",
           registered_at := 0, last_seen := 0, status := "Online" }]⟩) = true ∧
    (sys_start_all ⟨MgrState.init,
        [{ agent_id := "A", auth_token := "T", ip_address := "10.0.0.5",
           registered_at := 0, last_seen := 0, status := "Online" }]⟩).db =
      [{ agent_id := "A", auth_token := "T", ip_address := "10.0.0.5",
         registered_at := 0, last_seen := 0, status := "Online" }] :=
  start_all_units_amended _ rfl

/-- C5: `start_all` on a Running orchestrator is a no-op leaving the whole
state (running flag, cancellation signal, tracked task list) unchanged, so two
sequential `start_all` calls yield exactly the state of one; symmetrically
`stop_all` on a non-running orchestrator is a no-op that performs no
cancellation and does not raise the signal. -/
theorem start_stop_idempotence (s t : MgrState)
    (hs : s.running = true) (ht : t.running = false) :
    start_all s = s ∧
    (∀ u, start_all (start_all u) = start_all u) ∧
    stop_all t = (t, []) := by
  refine ⟨by simp [start_all, hs], ?_, by simp [stop_all, ht]⟩
  intro u
  by_cases hu : u.running
  · simp [start_all, hu]
  · simp [start_all, hu]

/-- Witness for C5 at the started and the initial manager states. -/
theorem start_stop_idempotence_witness :
    start_all (start_all MgrState.init) = start_all MgrState.init ∧
    stop_all MgrState.init = (MgrState.init, []) :=
  ⟨(start_stop_idempotence (start_all MgrState.init) MgrState.init rfl rfl).1,
   (start_stop_idempotence (start_all MgrState.init) MgrState.init rfl rfl).2.2⟩

/-- C6: after `stop_all` on a Running orchestrator returns, the shared
cancellation signal is set, the state is unconditionally Stopped
(running=false) with the tracked-unit bookkeeping cleared, and the record of
what was done to each tracked unit shows every cooperative (`asyncio.Task`)
unit cancelled and every blocking unit left exactly as it was — abandoned, not
forcibly terminated, whether or not it has observed the signal. -/
theorem stop_all_spec (s : MgrState) (h : s.running = true) :
    (stop_all s).1.stop_event = true ∧
    (stop_all s).1.running = false ∧
    (stop_all s).1.protocol_tasks = [] ∧
    List.Forall₂
      (fun t u => u.kind = t.kind ∧
        (t.kind.isAsyncTask = true → u.cancelled = true) ∧
        (t.kind.isAsyncTask = false → u = t))
      s.protocol_tasks (stop_all s).2 := by
  refine ⟨by simp [stop_all, h], by simp [stop_all, h], by simp [stop_all, h], ?_⟩
  have hsnd : (stop_all s).2 = s.protocol_tasks.map
      (fun t => if t.kind.isAsyncTask then { t with cancelled := true } else t) := by
    simp [stop_all, h]
  rw [hsnd]
  induction s.protocol_tasks with
  | nil => exact List.Forall₂.nil
  | cons x rest ih =>
      refine List.Forall₂.cons ?_ ih
      by_cases hx : x.kind.isAsyncTask
      · simp [hx]
      · simp [hx]

/-- Witness for C6 at the freshly started manager. -/
theorem stop_all_spec_witness :
    (stop_all (start_all MgrState.init)).1.stop_event = true ∧
    (stop_all (start_all MgrState.init)).1.running = false ∧
    (stop_all (start_all MgrState.init)).1.protocol_tasks = [] ∧
    List.Forall₂
      (fun t u => u.kind = t.kind ∧
        (t.kind.isAsyncTask = true → u.cancelled = true) ∧
        (t.kind.isAsyncTask = false → u = t))
      (start_all MgrState.init).protocol_tasks
      (stop_all (start_all MgrState.init)).2 :=
  stop_all_spec (start_all MgrState.init) rfl

/-- The manager state while a `stop_all` transition is in flight: during the
one-second grace sleep the signal is raised and the two cooperative tasks are
cancelled, but `running` is still true and the bookkeeping not yet cleared. -/
def stopInFlight : MgrState :=
  { protocol_tasks := [⟨.http, true⟩, ⟨.https, true⟩, ⟨.smb, false⟩,
                       ⟨.dns, false⟩, ⟨.icmp, false⟩],
    running := true, stop_event := true }

/-- C7 counterexample: a `start` control request arriving while a `stop_all`
transition is in flight is NOT rejected with an error: the endpoint consults
no transition lock (none exists) and returns its success body, and the
scheduled `start_all` sees `running == True` and silently returns — the
request is silently merged into the in-flight transition. -/
theorem control_inflight_counterexample :
    control_server_effect "start" stopInFlight =
      (.ok "Start triggered successfully!", stopInFlight) ∧
    (control_server_effect "start" stopInFlight).1.isError = false := by
  decide

/-- C7 amended: no start/stop/restart request is ever rejected — the control
surface answers success for the three actions in every manager state,
including states with a transition in flight; redundant or conflicting
requests are silently absorbed by the `running`-flag checks (a `start` while
Running and a `stop` while not Running leave the state unchanged), so no
second set of listener units is ever created, but no explicit error is
produced either. -/
theorem control_no_rejection_amended (s t : MgrState)
    (hs : s.running = true) (ht : t.running = false) :
    control_server_effect "start" s = (.ok "Start triggered successfully!", s) ∧
    control_server_effect "stop" t = (.ok "Stop triggered successfully!", t) ∧
    ∀ u, (control_server_effect "start" u).1.isError = false ∧
      (control_server_effect "stop" u).1.isError = false ∧
      (control_server_effect "restart" u).1.isError = false := by
  refine ⟨?_, ?_, ?_⟩
  · simp [control_server_effect, start_all, hs]
  · simp [control_server_effect, stop_all, ht]
  · intro u
    refine ⟨rfl, rfl, rfl⟩

/-- Witness for the amended C7: a second `start` right after a completed
`start` and a `stop` of the never-started manager are both answered with
success and change nothing. -/
theorem control_no_rejection_amended_witness :
    control_server_effect "start" (start_all MgrState.init) =
      (.ok "Start triggered successfully!", start_all MgrState.init) ∧
    control_server_effect "stop" MgrState.init =
      (.ok "Stop triggered successfully!", MgrState.init) :=
  ⟨(control_no_rejection_amended (start_all MgrState.init) MgrState.init
      rfl rfl).1,
   (control_no_rejection_amended (start_all MgrState.init) MgrState.init
      rfl rfl).2.1⟩

/-- C8 counterexample: a `start` action whose scheduled `start_all` coroutine
raises when it runs still yields the success response: the failure lands in
the background task after the endpoint has returned, so it is silently
discarded, not surfaced as an error response. -/
theorem control_failure_not_surfaced_counterexample :
    control_server_response "start" .raises .completes =
      (.ok "Start triggered successfully!", true) ∧
    (control_server_response "start" .raises .completes).1.isError = false := by
  decide

/-- C8 amended: an action outside {start, stop, restart} is rejected with
`HTTPException(400)` before any orchestrator call (nothing is invoked or
scheduled and the manager state is unchanged); the three valid actions map 1:1
onto `start_all`, `stop_all`, and `stop_all`-then-`start_all`; a failure of
the awaited `stop_all` during `restart` is surfaced as `HTTPException(500)`,
but failures of the background-scheduled `start_all`/`stop_all` coroutines are
not surfaced — `start` and `stop` answer success regardless of the
orchestrator outcome. -/
theorem control_server_amended (action : String)
    (h : action ∉ ["start", "stop", "restart"]) :
    (∀ so st, control_server_response action so st =
      (.httpError 400 "Invalid action", false)) ∧
    (∀ s, control_server_effect action s =
      (.httpError 400 "Invalid action", s)) ∧
    (∀ s, (control_server_effect "start" s).2 = start_all s ∧
      (control_server_effect "stop" s).2 = (stop_all s).1 ∧
      (control_server_effect "restart" s).2 = start_all (stop_all s).1) ∧
    (∀ so, control_server_response "restart" so .raises =
      (.httpError 500 "Failed to restart server.", true)) ∧
    (∀ so st, (control_server_response "start" so st).1 =
        .ok "Start triggered successfully!" ∧
      (control_server_response "stop" so st).1 =
        .ok "Stop triggered successfully!") := by
  have h1 : (action == "start") = false := by
    refine beq_eq_false_iff_ne.mpr ?_
    intro e; exact h (by simp [e])
  have h2 : (action == "stop") = false := by
    refine beq_eq_false_iff_ne.mpr ?_
    intro e; exact h (by simp [e])
  have h3 : (action == "restart") = false := by
    refine beq_eq_false_iff_ne.mpr ?_
    intro e; exact h (by simp [e])
  refine ⟨?_, ?_, ?_, ?_, ?_⟩
  · intro so st; simp [control_server_response, h1, h2, h3]
  · intro s; simp [control_server_effect, h1, h2, h3]
  · intro s; exact ⟨rfl, rfl, rfl⟩
  · intro so; rfl
  · intro so st; exact ⟨rfl, rfl⟩

/-- Witness for the amended C8 at the unknown action `"reboot"`. -/
theorem control_server_amended_witness :
    control_server_response "reboot" .completes .completes =
      (.httpError 400 "Invalid action", false) ∧
    control_server_effect "reboot" MgrState.init =
      (.httpError 400 "Invalid action", MgrState.init) :=
  ⟨(control_server_amended "reboot" (by decide)).1 .completes .completes,
   (control_server_amended "reboot" (by decide)).2.1 MgrState.init⟩

/-! ## Agent-side transports — `Agent/protocols/`

Each comm class's methods are embedded as functions of the outcome of the one
network call they make; the `exn` constructor stands for any exception raised
inside the method's `try` block (connection error, timeout, JSON decode
failure, payload decode failure).  Python `None` returns are `PyValue.pyNone`.
-/

/-- A Python value returned over the transport boundary. -/
inductive PyValue
  | pyNone
  | pyBool (b : Bool)
  | pyStr (s : String)
  | pyStrList (xs : List String)
deriving DecidableEq, Repr

/-- Outcome of one `requests.get`/`requests.post` call: either some exception
inside the `try` block, or a completed response with its status code and the
relevant parsed payload. -/
inductive HttpOutcome (α : Type)
  | exn
  | resp (status : Nat) (payload : α)
deriving DecidableEq, Repr

/-- A network call that did not come back as a 200 response: it raised, timed
out, or returned a non-success status. -/
def HttpOutcome.failed {α : Type} : HttpOutcome α → Bool
  | .exn => true
  | .resp status _ => status != 200

namespace HTTPComm

/-- `HTTPComm.poll_commands`: the payload is the `"commands"` field of the
response JSON (`none` when the key is missing, defaulted to `[]` by
`.get("commands", [])`). -/
def poll_commands (r : HttpOutcome (Option (List String))) : List String :=
  match r with
  | .exn => []
  | .resp status payload => if status == 200 then payload.getD [] else []

/-- `HTTPComm.send_output(output)`. -/
def send_output (output : String) (r : HttpOutcome Unit) : Bool :=
  match r with
  | .exn => false
  | .resp status _ => status == 200

/-- `HTTPComm.send_message(message)`: the payload is the `"response"` field of
the response JSON, defaulted to `""`. -/
def send_message (message : String) (r : HttpOutcome (Option String)) : String :=
  match r with
  | .exn => ""
  | .resp status payload => if status == 200 then payload.getD "" else ""

/-- `HTTPComm.heartbeat`: a genuine boolean on every path. -/
def heartbeat (r : HttpOutcome Unit) : PyValue :=
  match r with
  | .exn => .pyBool false
  | .resp status _ => .pyBool (status == 200)

end HTTPComm

/-- One item of a DNS answer record: `item.strings` when the item has that
attribute (already decoded), `none` when `hasattr(item, "strings")` fails. -/
structure TXTItem where
  strings : Option (List String)
deriving DecidableEq, Repr

/-- The first `strings` attribute found walking the items of one answer. -/
def firstTxtItem : List TXTItem → Option (List String)
  | [] => none
  | item :: rest =>
    match item.strings with
    | some ss => some ss
    | none => firstTxtItem rest

/-- The first `strings` attribute found walking `response.answer` in order. -/
def firstTxt : List (List TXTItem) → Option (List String)
  | [] => none
  | ans :: rest =>
    match firstTxtItem ans with
    | some ss => some ss
    | none => firstTxt rest

/-- Outcome of the `dns.query.udp` call. -/
inductive DnsOutcome
  | exn
  | resp (answers : List (List TXTItem))
deriving DecidableEq, Repr

namespace DNSComm

/-- `DNSComm.poll_commands`: logs "not implemented" and returns `[]`. -/
def poll_commands : List String := []

/-- `DNSComm.send_message(message)`: returns the space-joined segments of the
first TXT answer item, `""` on any exception or when no item has `strings`. -/
def send_message (message : String) (r : DnsOutcome) : String :=
  match r with
  | .exn => ""
  | .resp answers =>
    match firstTxt answers with
    | some ss => String.intercalate " " ss
    | none => ""

/-- `DNSComm.heartbeat`: logs "not implemented"; the Python body has no
return statement, so the caller receives `None` — not `False`. -/
def heartbeat : PyValue := .pyNone

end DNSComm

/-- Outcome of the scapy `sr1` call: exception, timeout (`None` reply), or a
reply packet with or without an ICMP layer and with its raw payload. -/
inductive IcmpOutcome
  | exn
  | noReply
  | reply (hasIcmpLayer : Bool) (payload : String)
deriving DecidableEq, Repr

namespace ICMPComm

/-- `ICMPComm.poll_commands`: logs "not implemented" and returns `[]`. -/
def poll_commands : List String := []

/-- `ICMPComm.send_message(message)`: decodes the echo-reply payload, `""` on
exception, timeout, or a reply without an ICMP layer. -/
def send_message (message : String) (r : IcmpOutcome) : String :=
  match r with
  | .exn => ""
  | .noReply => ""
  | .reply hasIcmp payload => if hasIcmp then payload else ""

/-- `ICMPComm.heartbeat`: logs "not implemented"; no return statement, so the
caller receives `None` — not `False`. -/
def heartbeat : PyValue := .pyNone

end ICMPComm

namespace SMBComm

/-- `SMBComm.poll_commands`: logs "not implemented" and returns `[]`. -/
def poll_commands : List String := []

/-- `SMBComm.send_message(message)`: logs "not implemented" and returns `""`
unconditionally — no network call is made. -/
def send_message (message : String) : String := ""

/-- `SMBComm.heartbeat`: logs "not implemented"; no return statement, so the
caller receives `None` — not `False`. -/
def heartbeat : PyValue := .pyNone

end SMBComm

/-- The four comm classes of `Agent/protocols/`. -/
inductive CommKind
  | http
  | dns
  | icmp
  | smb
deriving DecidableEq, Repr

/-- Which of the capability-set methods the class body defines.  `BaseComm`
defines only `send_message` (and that one raises `NotImplementedError`), so a
method missing from a subclass is missing from the instance altogether. -/
def definesMethod (c : CommKind) (m : String) : Bool :=
  match c with
  | .http => m == "send_message" || m == "poll_commands" ||
      m == "send_output" || m == "heartbeat"
  | _ => m == "send_message" || m == "poll_commands" || m == "heartbeat"

/-- Python attribute lookup plus call for `comm.send_output(output)`: on
`HTTPComm` the method runs; on `DNSComm`, `ICMPComm` and `SMBComm` neither the
class nor `BaseComm` defines `send_output`, so the attribute lookup itself
raises `AttributeError`, which propagates to the caller. -/
def invoke_send_output (c : CommKind) (output : String)
    (r : HttpOutcome Unit) : Except String PyValue :=
  match c with
  | .http => .ok (.pyBool (HTTPComm.send_output output r))
  | _ => .error "AttributeError"

/-! ## Agent tasking loop — `Agent/agent_main.py` -/

/-- An observable step of one polling cycle: a command execution or the report
of its result over the transport (with the transport's response). -/
inductive AgentEvent
  | exec (cmd : String) (result : String)
  | report (result : String) (response : String)
deriving DecidableEq, Repr

/-- The body of one `protocol_polling_task` cycle after `poll_commands`
returned `commands`: for each command in order, execute it (the source
simulates execution as `result = f"Executed: {cmd}"`) and immediately report
the result via `comm.send_message(result)` before touching the next command.
`send` is the transport's `send_message`; its return value is ignored by the
loop. -/
def polling_cycle (send : String → String) : List String → List AgentEvent
  | [] => []
  | cmd :: rest =>
    .exec cmd ("Executed: " ++ cmd) ::
      .report ("Executed: " ++ cmd) (send ("Executed: " ++ cmd)) ::
        polling_cycle send rest

/-- The commands a trace executed, in order. -/
def execCmds : List AgentEvent → List String
  | [] => []
  | .exec c _ :: rest => c :: execCmds rest
  | .report _ _ :: rest => execCmds rest

/-- A trace with the transport responses blanked out — the part of the trace
the loop's control flow could possibly depend on. -/
def eraseResponses : List AgentEvent → List AgentEvent
  | [] => []
  | .exec c r :: rest => .exec c r :: eraseResponses rest
  | .report r _ :: rest => .report r "" :: eraseResponses rest

/-! ### Claim theorems about the transports and the tasking loop -/

/-- C4 counterexample: the capability-set contract does not hold uniformly.
`DNSComm.heartbeat` returns Python `None`, not the canonical failure value
`False`; and `send_output` is not defined on `DNSComm` at all (nor on
`ICMPComm`/`SMBComm`, nor on `BaseComm`), so calling it raises
`AttributeError` — an exception that propagates past the transport boundary
to the caller. -/
theorem transport_contract_counterexample :
    DNSComm.heartbeat = .pyNone ∧
    DNSComm.heartbeat ≠ .pyBool false ∧
    definesMethod .dns "send_output" = false ∧
    invoke_send_output .dns "result" (.resp 200 ()) = .error "AttributeError" := by
  refine ⟨rfl, by decide, by decide, rfl⟩

/-- C4 amended: the fail-closed contract holds for the operations each class
actually defines: `send_message` yields `""` and `poll_commands` yields `[]`
on every network error, timeout, non-success status or malformed response, on
every variant; `HTTPComm.send_output` and `HTTPComm.heartbeat` yield
`false` on failure.  But DNS, ICMP and SMB declare heartbeat as a logging
no-op returning `None` (not `False`), and define no `send_output` at all, so
the canonical-`False` part of the contract holds only for HTTP. -/
theorem transport_fail_closed_amended :
    (∀ (m : String) (r : HttpOutcome (Option String)), r.failed = true →
      HTTPComm.send_message m r = "") ∧
    (∀ (r : HttpOutcome (Option (List String))), r.failed = true →
      HTTPComm.poll_commands r = []) ∧
    (∀ (o : String) (r : HttpOutcome Unit), r.failed = true →
      HTTPComm.send_output o r = false) ∧
    (∀ (r : HttpOutcome Unit), r.failed = true →
      HTTPComm.heartbeat r = .pyBool false) ∧
    (∀ m, DNSComm.send_message m .exn = "") ∧
    (∀ m answers, firstTxt answers = none →
      DNSComm.send_message m (.resp answers) = "") ∧
    DNSComm.poll_commands = [] ∧
    DNSComm.heartbeat = .pyNone ∧
    (∀ m, ICMPComm.send_message m .exn = "" ∧
      ICMPComm.send_message m .noReply = "") ∧
    (∀ m p, ICMPComm.send_message m (.reply false p) = "") ∧
    ICMPComm.poll_commands = [] ∧
    ICMPComm.heartbeat = .pyNone ∧
    (∀ m, SMBComm.send_message m = "") ∧
    SMBComm.poll_commands = [] ∧
    SMBComm.heartbeat = .pyNone ∧
    definesMethod .http "send_output" = true ∧
    definesMethod .dns "send_output" = false ∧
    definesMethod .icmp "send_output" = false ∧
    definesMethod .smb "send_output" = false := by
  refine ⟨?_, ?_, ?_, ?_, fun m => rfl, ?_, rfl, rfl, fun m => ⟨rfl, rfl⟩,
    fun m p => rfl, rfl, rfl, fun m => rfl, rfl, rfl, by decide, by decide,
    by decide, by decide⟩
  · intro m r h
    cases r with
    | exn => rfl
    | resp status payload =>
        simp [HttpOutcome.failed] at h
        simp [HTTPComm.send_message, h]
  · intro r h
    cases r with
    | exn => rfl
    | resp status payload =>
        simp [HttpOutcome.failed] at h
        simp [HTTPComm.poll_commands, h]
  · intro o r h
    cases r with
    | exn => rfl
    | resp status payload =>
        simp [HttpOutcome.failed] at h
        simp [HTTPComm.send_output, h]
  · intro r h
    cases r with
    | exn => rfl
    | resp status payload =>
        simp [HttpOutcome.failed] at h
        simp [HTTPComm.heartbeat, h]
  · intro m answers h
    simp [DNSComm.send_message, h]

/-- Witness for the amended C4: concrete failing calls yield the canonical
values. -/
theorem transport_fail_closed_amended_witness :
    HTTPComm.send_message "ping" .exn = "" ∧
    HTTPComm.poll_commands (.resp 500 none) = [] ∧
    HTTPComm.send_output "out" .exn = false ∧
    HTTPComm.heartbeat (.resp 404 ()) = .pyBool false ∧
    DNSComm.send_message "heartbeat" (.resp [[]]) = "" := by
  obtain ⟨h1, h2, h3, h4, h5, h6, -⟩ := transport_fail_closed_amended
  exact ⟨h1 "ping" .exn rfl, h2 (.resp 500 none) (by decide),
    h3 "out" .exn rfl, h4 (.resp 404 ()) (by decide),
    h6 "heartbeat" [[]] rfl⟩

/-- C9: in every polling cycle, for every command sequence returned by
`poll_commands` and for every transport `send` function: every command is
executed, in the order received — the executed-command sequence equals the
polled one no matter what `send` returns, including a transport whose every
report fails; each result is reported immediately after its execution and
before the next command is touched; and the cycle's shape is the same for any
two transports, so a failed report neither halts the cycle nor skips a
remaining command. -/
theorem polling_cycle_spec (cmds : List String) (send send2 : String → String) :
    execCmds (polling_cycle send cmds) = cmds ∧
    eraseResponses (polling_cycle send cmds) =
      eraseResponses (polling_cycle send2 cmds) ∧
    ∀ n c r, (polling_cycle send cmds)[n]? = some (.exec c r) →
      (polling_cycle send cmds)[n + 1]? = some (.report r (send r)) := by
  refine ⟨?_, ?_, ?_⟩
  · induction cmds with
    | nil => rfl
    | cons c rest ih => simp [polling_cycle, execCmds, ih]
  · induction cmds with
    | nil => rfl
    | cons c rest ih => simp [polling_cycle, eraseResponses, ih]
  · induction cmds with
    | nil => intro n c r h; simp [polling_cycle] at h
    | cons c0 rest ih =>
        intro n c r h
        match n with
        | 0 =>
            have h1 : AgentEvent.exec c0 ("Executed: " ++ c0) =
                AgentEvent.exec c r := by
              simpa [polling_cycle] using h
            injection h1 with hc hr
            subst hc
            subst hr
            simp [polling_cycle]
        | 1 => simp [polling_cycle] at h
        | Nat.succ (Nat.succ m) =>
            have h' : (polling_cycle send rest)[m]? = some (.exec c r) := by
              simpa [polling_cycle] using h
            have h2 := ih m c r h'
            simpa [polling_cycle] using h2

/-- Witness for C9: a two-command cycle over a transport whose every report
fails (returns the empty failure value) still executes both commands in order
and reports the first result immediately after executing it. -/
theorem polling_cycle_spec_witness :
    execCmds (polling_cycle (fun x => "") ["whoami", "ls"]) = ["whoami", "ls"] ∧
    (polling_cycle (fun x => "") ["whoami", "ls"])[1]? =
      some (.report "Executed: whoami" "") := by
  have h := polling_cycle_spec ["whoami", "ls"] (fun x => "") (fun r => r)
  refine ⟨h.1, ?_⟩
  have h2 := h.2.2 0 "whoami" "Executed: whoami" (by rfl)
  simpa using h2

end Creampy
